import Mathlib

/-!
Verification of the keyword search engine (`building_codes_server/code_database.py`,
`material_specs_server/suppliers/home_depot.py`) and of the material calculators
(`material_specs_server/calculators.py`) of the diy-helper-mcp-servers repository.

The Python code is shallowly embedded: records and products become structures,
dict `.get` accesses become `Option` fields, the search loops become structural
recursions, Python's stable `list.sort` becomes insertion sort, and the float
arithmetic of the calculators is modelled by exact rationals together with an
explicit IEEE-754 binary64 round-to-nearest-even rounding step after every
arithmetic operation (overflow and subnormals are ignored; every quantity in
this development is far inside the normal range).
-/

/-! ### Python string primitives -/

/-- Python `str.lower()` (ASCII fragment, as `Char.toLower`). -/
def pyLower (s : List Char) : List Char := s.map Char.toLower

/-- Accumulator worker for `pySplit`; `acc` holds the current word reversed. -/
def splitAux : List Char → List Char → List (List Char)
  | [], acc => if acc.isEmpty then [] else [acc.reverse]
  | c :: t, acc =>
    if c.isWhitespace then
      if acc.isEmpty then splitAux t [] else acc.reverse :: splitAux t []
    else splitAux t (c :: acc)

/-- Python `str.split()` with no argument: split on whitespace runs, dropping
empty words. -/
def pySplit (s : List Char) : List (List Char) := splitAux s []

/-- Python substring containment `needle in haystack`. -/
def substrIn (n : List Char) : List Char → Bool
  | [] => n.isEmpty
  | c :: t => n.isPrefixOf (c :: t) || substrIn n t

/-- Python truthiness of an optional string (`None` and `""` are falsy). -/
def strOptTruthy : Option String → Bool
  | none => false
  | some s => !(s == "")

/-! ### Building-code records (`code_database.py`)

A record is a JSON object; the fields the code reads through `.get` are
modelled as `Option` fields (absent key ↦ `none`). -/

structure CodeRecord where
  code_ref : Option String
  title : Option String
  summary : Option String
  common_questions : Option (List String)
  jurisdiction : Option String
  category : Option String
deriving DecidableEq

/-- The `searchable_text` string of `CodeDatabase.search`:
`f"{title} {summary} {' '.join(common_questions)}".lower()` with the source's
`.get(..., '')` / `.get(..., [])` defaults. -/
def searchableText (c : CodeRecord) : List Char :=
  pyLower ((c.title.getD "" ++ " " ++ c.summary.getD "" ++ " " ++
    String.intercalate " " (c.common_questions.getD [])).data)

/-- The scoring loop of `CodeDatabase.search`: `score = 0`, then
`for word in query_lower.split(): if word in searchable_text: score += 1`. -/
def keywordScore (query_lower : List Char) (text : List Char) : Nat :=
  (pySplit query_lower).foldl (fun score word => if substrIn word text then score + 1 else score) 0

/-- The record loop of `CodeDatabase.search`: jurisdiction filter, truthiness
guarded category filter, scoring, and `if score > 0: results.append({**code,
'relevance_score': score})`, in source order. -/
def collectResults (query jurisdiction : String) (code_type : Option String) :
    List CodeRecord → List (CodeRecord × Nat)
  | [] => []
  | code :: rest =>
    if code.jurisdiction ≠ some jurisdiction then
      collectResults query jurisdiction code_type rest
    else if strOptTruthy code_type && !(code.category == code_type) then
      collectResults query jurisdiction code_type rest
    else
      let score := keywordScore (pyLower query.data) (searchableText code)
      if 0 < score then (code, score) :: collectResults query jurisdiction code_type rest
      else collectResults query jurisdiction code_type rest

/-- Comparator of `results.sort(key=lambda x: x['relevance_score'], reverse=True)`:
Python's sort is stable, and a stable descending sort inserts each element after
all earlier elements of greater-or-equal key. -/
def scoreGe (a b : CodeRecord × Nat) : Prop := b.2 ≤ a.2

instance : DecidableRel scoreGe := fun a b => Nat.decLe b.2 a.2

instance : IsTotal (CodeRecord × Nat) scoreGe := ⟨fun a b => le_total b.2 a.2⟩

instance : IsTrans (CodeRecord × Nat) scoreGe := ⟨fun _ _ _ h1 h2 => le_trans h2 h1⟩

namespace CodeDatabase

/-- `CodeDatabase.search(query, jurisdiction, code_type, top_k)`: filter and
score every record, sort stably by score descending, return the first `top_k`. -/
def search (codes : List CodeRecord) (query : String) (jurisdiction : String)
    (code_type : Option String) (top_k : Nat) : List (CodeRecord × Nat) :=
  (List.insertionSort scoreGe (collectResults query jurisdiction code_type codes)).take top_k

/-- `CodeDatabase.search` state-passing form: the loop body only reads
`self.codes` (it builds fresh result dicts via `{**code, ...}` and never
assigns to the collection), so the method returns the collection unchanged. -/
def searchST (codes : List CodeRecord) (query : String) (jurisdiction : String)
    (code_type : Option String) (top_k : Nat) :
    List (CodeRecord × Nat) × List CodeRecord :=
  (search codes query jurisdiction code_type top_k, codes)

/-- `CodeDatabase.get_section(section_reference, jurisdiction)`: linear scan
with early return on the first record matching both equalities, else `None`. -/
def get_section (codes : List CodeRecord) (section_reference : String)
    (jurisdiction : String) : Option CodeRecord :=
  match codes with
  | [] => none
  | code :: rest =>
    if code.code_ref = some section_reference ∧ code.jurisdiction = some jurisdiction then
      some code
    else get_section rest section_reference jurisdiction

/-- `CodeDatabase.load_codes`: the backing file is modelled as
`Option (List CodeRecord)` (`none` = `os.path.exists` is false); in that case
the source sets `self.codes = []` and proceeds (printing a warning only). -/
def load_codes (file : Option (List CodeRecord)) : List CodeRecord :=
  file.getD []

end CodeDatabase

/-! ### IEEE-754 binary64 model

Python floats are IEEE-754 doubles. A double's value is an exact rational, so
we carry exact rationals and re-round (to 53 significant bits, nearest,
ties-to-even) after every arithmetic operation, exactly as the hardware does.
Overflow and subnormal underflow are not modelled; all quantities in this
development lie far inside the normal range. -/

/-- Floor of a rational (exact; Python's `math.floor`). -/
def ratFloor (q : ℚ) : ℤ := ⌊q⌋

/-- Ceiling of a rational (exact; Python's `math.ceil`). -/
def ratCeil (q : ℚ) : ℤ := ⌈q⌉

/-- Round a rational to the nearest integer, ties to even. -/
def roundHalfEven (q : ℚ) : ℤ :=
  let f := ratFloor q
  let r := q - (f : ℚ)
  if r < 1 / 2 then f
  else if 1 / 2 < r then f + 1
  else if f % 2 = 0 then f else f + 1

/-- Fuel-driven binary logarithm (downward) for `1 ≤ q`. -/
def log2Up : Nat → ℚ → Nat
  | 0, _ => 0
  | fuel + 1, q => if q < 2 then 0 else log2Up fuel (q / 2) + 1

/-- Fuel-driven count of doublings needed to reach `1` for `0 < q < 1`. -/
def log2Down : Nat → ℚ → Nat
  | 0, _ => 0
  | fuel + 1, q => if 1 ≤ q then 0 else log2Down fuel (q * 2) + 1

/-- `ilog2 q` is the exponent `e` with `2 ^ e ≤ q < 2 ^ (e + 1)` for positive
`q` in the binary64 range (fuel 1200 covers every such exponent). -/
def ilog2 (q : ℚ) : ℤ :=
  if 1 ≤ q then (log2Up 1200 q : ℤ) else -(log2Down 1200 q : ℤ)

/-- Integer powers of two as rationals. -/
def pow2 (s : ℤ) : ℚ :=
  if 0 ≤ s then ((2 ^ s.toNat : ℕ) : ℚ) else (((2 ^ (-s).toNat : ℕ) : ℚ))⁻¹

/-- Round an exact rational to the nearest IEEE-754 binary64 value
(53 significant bits, ties to even). -/
def roundDouble (q : ℚ) : ℚ :=
  if q = 0 then 0
  else
    let a := |q|
    let s : ℤ := 52 - ilog2 a
    let m := roundHalfEven (a * pow2 s)
    (if q < 0 then -1 else 1) * (m : ℚ) * pow2 (-s)

/-- Python float addition. -/
def pyAdd (a b : ℚ) : ℚ := roundDouble (a + b)

/-- Python float multiplication. -/
def pyMul (a b : ℚ) : ℚ := roundDouble (a * b)

/-- Python float (true) division; also `int / int`, which CPython computes
correctly rounded. -/
def pyDiv (a b : ℚ) : ℚ := roundDouble (a / b)

/-- Python `int` → `float` conversion (rounds once the int exceeds 2^53). -/
def pyInt (z : ℤ) : ℚ := roundDouble z

/-- Python `round(x, 1)` on a float: correctly rounded to a multiple of 1/10
(ties to even), then back to the nearest double. -/
def pyRound1 (x : ℚ) : ℚ := roundDouble ((roundHalfEven (x * 10) : ℚ) / 10)

/-! #### Evaluation lemmas for the rounding model -/

theorem pow2_eq_zpow (s : ℤ) : pow2 s = (2 : ℚ) ^ s := by
  unfold pow2
  by_cases h : 0 ≤ s
  · rw [if_pos h]
    push_cast
    rw [← zpow_natCast (2 : ℚ), Int.toNat_of_nonneg h]
  · rw [if_neg h]
    push_cast
    rw [← zpow_natCast (2 : ℚ), Int.toNat_of_nonneg (by omega : (0 : ℤ) ≤ -s), ← zpow_neg,
      neg_neg]

theorem log2Up_eq (fuel n : ℕ) (q : ℚ) (hf : n < fuel)
    (h1 : (2 : ℚ) ^ n ≤ q) (h2 : q < 2 ^ (n + 1)) : log2Up fuel q = n := by
  induction fuel generalizing n q with
  | zero => omega
  | succ f ih =>
    rw [log2Up]
    match n with
    | 0 =>
      rw [if_pos]
      simpa using h2
    | m + 1 =>
      rw [if_neg (by
        have h2m : (2 : ℚ) ≤ 2 ^ (m + 1) := by
          calc (2 : ℚ) = 2 ^ 1 := (pow_one 2).symm
          _ ≤ 2 ^ (m + 1) := pow_le_pow_right₀ one_le_two (by omega)
        exact not_lt.mpr (le_trans h2m h1))]
      rw [ih m (q / 2) (by omega)]
      · have : (2 : ℚ) ^ (m + 1) = 2 ^ m * 2 := by ring
        rw [this] at h1
        exact (le_div_iff₀ (by norm_num)).mpr h1
      · have : (2 : ℚ) ^ (m + 1 + 1) = 2 ^ (m + 1) * 2 := by ring
        rw [this] at h2
        exact (div_lt_iff₀ (by norm_num)).mpr h2

theorem log2Down_eq (fuel n : ℕ) (q : ℚ) (hf : n < fuel)
    (h1 : (2 : ℚ) ^ (-(n : ℤ)) ≤ q) (h2 : q < 2 ^ (-(n : ℤ) + 1)) : log2Down fuel q = n := by
  induction fuel generalizing n q with
  | zero => omega
  | succ f ih =>
    rw [log2Down]
    match n with
    | 0 =>
      rw [if_pos (by simpa using h1)]
    | m + 1 =>
      rw [if_neg (by
        have : (-(m + 1 : ℕ) : ℤ) + 1 = -(m : ℤ) := by push_cast; ring
        rw [this] at h2
        have hle : (2 : ℚ) ^ (-(m : ℤ)) ≤ 1 := by
          apply zpow_le_one_of_nonpos₀ one_le_two (by omega)
        exact not_le.mpr (lt_of_lt_of_le h2 hle))]
      rw [ih m (q * 2) (by omega)]
      · have h1' : (2 : ℚ) ^ (-(m + 1 : ℕ) : ℤ) * 2 = 2 ^ (-(m : ℤ)) := by
          rw [← zpow_add_one₀ (by norm_num : (2 : ℚ) ≠ 0)]
          norm_num
        calc (2 : ℚ) ^ (-(m : ℤ)) = 2 ^ (-(m + 1 : ℕ) : ℤ) * 2 := h1'.symm
        _ ≤ q * 2 := by nlinarith
      · have h2' : (-(m + 1 : ℕ) : ℤ) + 1 = -(m : ℤ) := by push_cast; ring
        rw [h2'] at h2
        have : (2 : ℚ) ^ (-(m : ℤ) + 1) = 2 ^ (-(m : ℤ)) * 2 := by
          rw [zpow_add_one₀ (by norm_num : (2 : ℚ) ≠ 0)]
        rw [this]
        nlinarith

theorem ilog2_eq (q : ℚ) (e : ℤ) (he1 : -1100 ≤ e) (he2 : e ≤ 1100)
    (h1 : (2 : ℚ) ^ e ≤ q) (h2 : q < 2 ^ (e + 1)) : ilog2 q = e := by
  unfold ilog2
  by_cases hq : 1 ≤ q
  · rw [if_pos hq]
    have he0 : 0 ≤ e := by
      by_contra hneg
      have : e + 1 ≤ 0 := by omega
      have hle : (2 : ℚ) ^ (e + 1) ≤ 1 := zpow_le_one_of_nonpos₀ one_le_two this
      exact absurd (lt_of_lt_of_le h2 hle) (not_lt.mpr hq)
    have : log2Up 1200 q = e.toNat := by
      apply log2Up_eq 1200 e.toNat q (by omega)
      · rw [← zpow_natCast (2 : ℚ), Int.toNat_of_nonneg he0]; exact h1
      · rw [← zpow_natCast (2 : ℚ)]
        push_cast [Int.toNat_of_nonneg he0]
        exact h2
    rw [this, Int.toNat_of_nonneg he0]
  · rw [if_neg hq]
    have he0 : e < 0 := by
      by_contra hpos
      have hle : (1 : ℚ) ≤ 2 ^ e := one_le_zpow₀ one_le_two (by omega)
      exact hq (le_trans hle h1)
    have : log2Down 1200 q = (-e).toNat := by
      apply log2Down_eq 1200 (-e).toNat q (by omega)
      · rw [Int.toNat_of_nonneg (by omega : (0:ℤ) ≤ -e), neg_neg]; exact h1
      · rw [Int.toNat_of_nonneg (by omega : (0:ℤ) ≤ -e), neg_neg]; exact h2
    rw [this, Int.toNat_of_nonneg (by omega : (0:ℤ) ≤ -e), neg_neg]

/-- Workhorse for evaluating `roundDouble` at concrete positive rationals:
supply the binade exponent `e` and the rounded scaled mantissa `m`. -/
theorem roundDouble_pos_eq (q : ℚ) (e m : ℤ) (h0 : 0 < q)
    (he1 : -1100 ≤ e) (he2 : e ≤ 1100)
    (h1 : (2 : ℚ) ^ e ≤ q) (h2 : q < 2 ^ (e + 1))
    (hm : roundHalfEven (q * 2 ^ (52 - e)) = m) :
    roundDouble q = m * (2 : ℚ) ^ (e - 52) := by
  unfold roundDouble
  rw [if_neg (ne_of_gt h0), abs_of_pos h0, if_neg (not_lt.mpr (le_of_lt h0))]
  dsimp only
  rw [ilog2_eq q e he1 he2 h1 h2, pow2_eq_zpow, pow2_eq_zpow, hm]
  rw [neg_sub]
  ring

/-! ### Material calculators (`calculators.py`)

Numeric inputs and results are Python floats (modelled as exact rationals
re-rounded by `roundDouble` after each operation) except where the source
produces ints (`math.ceil` results and products of ints, modelled as `ℤ`). -/

/-- The parsed Python literal `0.15` (the default `waste_factor` of
`calculate_wire_length`). -/
def waste15 : ℚ := roundDouble (3 / 20)

/-- The parsed Python literal `0.10` (the default `waste_factor` of
`calculate_tile_needed`). -/
def waste10 : ℚ := roundDouble (1 / 10)

/-- Result dict of `calculate_wire_length`. -/
structure WireResult where
  base_feet : ℚ
  with_waste : ℚ
  recommended_feet : ℤ
  waste_factor : ℚ
  note : String
deriving DecidableEq

/-- Result dict of `calculate_tile_needed`. -/
structure TileResult where
  area_sq_ft : ℚ
  tile_size : String
  tiles_needed : ℤ
  cases_needed : ℤ
  total_tiles : ℤ
  total_coverage_sq_ft : ℚ
  waste_factor : ℚ
  note : String
deriving DecidableEq

namespace MaterialCalculator

/-- `MaterialCalculator.calculate_wire_length`:
`total_feet = circuit_length_feet * 2 * num_circuits`,
`with_waste = total_feet * (1 + waste_factor)`,
`recommended_feet = math.ceil(with_waste / 25) * 25` (an int). -/
def calculate_wire_length (circuit_length_feet : ℚ) (num_circuits : ℤ)
    (waste_factor : ℚ) : WireResult :=
  let total_feet := pyMul (pyMul circuit_length_feet 2) (pyInt num_circuits)
  let with_waste := pyMul total_feet (pyAdd 1 waste_factor)
  let recommended_feet := ratCeil (pyDiv with_waste 25) * 25
  { base_feet := total_feet
    with_waste := with_waste
    recommended_feet := recommended_feet
    waste_factor := waste_factor
    note := "Buying " ++ toString recommended_feet ++
      "ft gives you buffer for mistakes and future repairs" }

/-- `MaterialCalculator.calculate_tile_needed`:
`tile_area = (w/12)*(h/12)`, `base_tiles = ceil(area/tile_area)`,
`total_tiles = ceil(base_tiles*(1+waste_factor))`,
`cases_needed = ceil(total_tiles/10)`, reported `total_tiles = cases*10`,
`total_coverage = round(cases*10*tile_area, 1)`. -/
def calculate_tile_needed (area_sq_ft : ℚ) (tile_w tile_h : ℤ)
    (waste_factor : ℚ) : TileResult :=
  let tile_width_ft := pyDiv (pyInt tile_w) 12
  let tile_height_ft := pyDiv (pyInt tile_h) 12
  let tile_area_sq_ft := pyMul tile_width_ft tile_height_ft
  let base_tiles := ratCeil (pyDiv area_sq_ft tile_area_sq_ft)
  let total_tiles := ratCeil (pyMul (pyInt base_tiles) (pyAdd 1 waste_factor))
  let tiles_per_case : ℤ := 10
  let cases_needed := ratCeil (pyDiv (pyInt total_tiles) (pyInt tiles_per_case))
  let total_coverage := pyMul (pyInt (cases_needed * tiles_per_case)) tile_area_sq_ft
  { area_sq_ft := area_sq_ft
    tile_size := toString tile_w ++ "x" ++ toString tile_h ++ " inches"
    tiles_needed := total_tiles
    cases_needed := cases_needed
    total_tiles := cases_needed * tiles_per_case
    total_coverage_sq_ft := pyRound1 total_coverage
    waste_factor := waste_factor
    note := "Ordering " ++ toString cases_needed ++ " cases gives you " ++
      toString (total_tiles - base_tiles) ++ " extra tiles for cuts and repairs" }

end MaterialCalculator

/-! #### Concrete double values used by the calculator scenarios -/

theorem ratCeil_eq_neg_floor (q : ℚ) : ratCeil q = -⌊-q⌋ := by
  unfold ratCeil
  rw [Int.floor_neg, neg_neg]

theorem rd_one : roundDouble 1 = 1 := by
  have h := roundDouble_pos_eq 1 0 4503599627370496 (by norm_num) (by norm_num) (by norm_num)
    (by norm_num) (by norm_num) (by norm_num [roundHalfEven, ratFloor])
  rw [h]; norm_num

theorem rd_hundred : roundDouble 100 = 100 := by
  have h := roundDouble_pos_eq 100 6 7036874417766400 (by norm_num) (by norm_num) (by norm_num)
    (by norm_num) (by norm_num) (by norm_num [roundHalfEven, ratFloor])
  rw [h]; norm_num

theorem waste15_val : waste15 = 5404319552844595 / 36028797018963968 := by
  have h := roundDouble_pos_eq (3 / 20) (-3) 5404319552844595 (by norm_num) (by norm_num)
    (by norm_num) (by norm_num) (by norm_num) (by norm_num [roundHalfEven, ratFloor])
  rw [waste15, h]; norm_num

theorem rd_twelve : roundDouble 12 = 12 := by
  have h := roundDouble_pos_eq 12 3 6755399441055744 (by norm_num) (by norm_num) (by norm_num)
    (by norm_num) (by norm_num) (by norm_num [roundHalfEven, ratFloor])
  rw [h]; norm_num

theorem rd_ten : roundDouble 10 = 10 := by
  have h := roundDouble_pos_eq 10 3 5629499534213120 (by norm_num) (by norm_num) (by norm_num)
    (by norm_num) (by norm_num) (by norm_num [roundHalfEven, ratFloor])
  rw [h]; norm_num

theorem rd_120 : roundDouble 120 = 120 := by
  have h := roundDouble_pos_eq 120 6 8444249301319680 (by norm_num) (by norm_num) (by norm_num)
    (by norm_num) (by norm_num) (by norm_num [roundHalfEven, ratFloor])
  rw [h]; norm_num

theorem rd_132 : roundDouble 132 = 132 := by
  have h := roundDouble_pos_eq 132 7 4644337115725824 (by norm_num) (by norm_num) (by norm_num)
    (by norm_num) (by norm_num) (by norm_num [roundHalfEven, ratFloor])
  rw [h]; norm_num

theorem pyInt_one : pyInt 1 = 1 := by
  rw [pyInt]; norm_num [rd_one]

theorem pyInt_ten : pyInt 10 = 10 := by
  rw [pyInt]; norm_num [rd_ten]

theorem pyInt_twelve : pyInt 12 = 12 := by
  rw [pyInt]; norm_num [rd_twelve]

theorem pyInt_120 : pyInt 120 = 120 := by
  rw [pyInt]; norm_num [rd_120]

theorem pyInt_132 : pyInt 132 = 132 := by
  rw [pyInt]; norm_num [rd_132]

theorem pyMul_fifty_two : pyMul 50 2 = 100 := by
  rw [pyMul]; norm_num [rd_hundred]

theorem pyMul_hundred_one : pyMul 100 1 = 100 := by
  rw [pyMul]; norm_num [rd_hundred]

theorem pyMul_one_one : pyMul 1 1 = 1 := by
  rw [pyMul]; norm_num [rd_one]

theorem pyDiv_12_12 : pyDiv 12 12 = 1 := by
  rw [pyDiv]; norm_num [rd_one]

theorem pyDiv_120_1 : pyDiv 120 1 = 120 := by
  rw [pyDiv]; norm_num [rd_120]

theorem one_plus_waste15 :
    pyAdd 1 (5404319552844595 / 36028797018963968) = 2589569785738035 / 2251799813685248 := by
  have h := roundDouble_pos_eq (1 + 5404319552844595 / 36028797018963968) 0 5179139571476070
    (by norm_num) (by norm_num) (by norm_num) (by norm_num) (by norm_num)
    (by norm_num [roundHalfEven, ratFloor])
  rw [pyAdd, h]; norm_num

theorem wire_ww_step :
    pyMul 100 (2589569785738035 / 2251799813685248) = 8092405580431359 / 70368744177664 := by
  have h := roundDouble_pos_eq (100 * (2589569785738035 / 2251799813685248)) 6 8092405580431359
    (by norm_num) (by norm_num) (by norm_num) (by norm_num) (by norm_num)
    (by norm_num [roundHalfEven, ratFloor])
  rw [pyMul, h]; norm_num

theorem wire_div25_step :
    pyDiv (8092405580431359 / 70368744177664) 25 = 5179139571476070 / 1125899906842624 := by
  have h := roundDouble_pos_eq (8092405580431359 / 70368744177664 / 25) 2 5179139571476070
    (by norm_num) (by norm_num) (by norm_num) (by norm_num) (by norm_num)
    (by norm_num [roundHalfEven, ratFloor])
  rw [pyDiv, h]; norm_num

theorem waste10_val : waste10 = 3602879701896397 / 36028797018963968 := by
  have h := roundDouble_pos_eq (1 / 10) (-4) 7205759403792794 (by norm_num) (by norm_num)
    (by norm_num) (by norm_num) (by norm_num) (by norm_num [roundHalfEven, ratFloor])
  rw [waste10, h]; norm_num

theorem one_plus_waste10 :
    pyAdd 1 (3602879701896397 / 36028797018963968) = 2476979795053773 / 2251799813685248 := by
  have h := roundDouble_pos_eq (1 + 3602879701896397 / 36028797018963968) 0 4953959590107546
    (by norm_num) (by norm_num) (by norm_num) (by norm_num) (by norm_num)
    (by norm_num [roundHalfEven, ratFloor])
  rw [pyAdd, h]; norm_num

theorem tile_132_step : pyMul 120 (2476979795053773 / 2251799813685248) = 132 := by
  have h := roundDouble_pos_eq (120 * (2476979795053773 / 2251799813685248)) 7 4644337115725824
    (by norm_num) (by norm_num) (by norm_num) (by norm_num) (by norm_num)
    (by norm_num [roundHalfEven, ratFloor])
  rw [pyMul, h]; norm_num

theorem tile_div10_step : pyDiv 132 10 = 3715469692580659 / 281474976710656 := by
  have h := roundDouble_pos_eq ((132 : ℚ) / 10) 3 7430939385161318
    (by norm_num) (by norm_num) (by norm_num) (by norm_num) (by norm_num)
    (by norm_num [roundHalfEven, ratFloor])
  rw [pyDiv, h]; norm_num

theorem ratCeil_120 : ratCeil 120 = 120 := by
  rw [ratCeil_eq_neg_floor]; norm_num

theorem ratCeil_132 : ratCeil 132 = 132 := by
  rw [ratCeil_eq_neg_floor]; norm_num

theorem ratCeil_wire : ratCeil (5179139571476070 / 1125899906842624) = 5 := by
  rw [ratCeil_eq_neg_floor]; norm_num

theorem ratCeil_tile : ratCeil (3715469692580659 / 281474976710656) = 14 := by
  rw [ratCeil_eq_neg_floor]; norm_num

theorem wire_base_val :
    (MaterialCalculator.calculate_wire_length 50 1 waste15).base_feet = 100 := by
  simp only [MaterialCalculator.calculate_wire_length]
  rw [pyInt_one, pyMul_fifty_two, pyMul_hundred_one]

theorem wire_ww_val :
    (MaterialCalculator.calculate_wire_length 50 1 waste15).with_waste =
      8092405580431359 / 70368744177664 := by
  simp only [MaterialCalculator.calculate_wire_length]
  rw [pyInt_one, pyMul_fifty_two, pyMul_hundred_one, waste15_val, one_plus_waste15,
    wire_ww_step]

theorem wire_rec_val :
    (MaterialCalculator.calculate_wire_length 50 1 waste15).recommended_feet = 125 := by
  simp only [MaterialCalculator.calculate_wire_length]
  rw [pyInt_one, pyMul_fifty_two, pyMul_hundred_one, waste15_val, one_plus_waste15,
    wire_ww_step, wire_div25_step, ratCeil_wire]
  norm_num

theorem tile_tiles_val :
    (MaterialCalculator.calculate_tile_needed 120 12 12 waste10).tiles_needed = 132 := by
  simp only [MaterialCalculator.calculate_tile_needed]
  rw [pyInt_twelve, pyDiv_12_12, pyMul_one_one, pyDiv_120_1, ratCeil_120, pyInt_120,
    waste10_val, one_plus_waste10, tile_132_step, ratCeil_132]

theorem tile_cases_val :
    (MaterialCalculator.calculate_tile_needed 120 12 12 waste10).cases_needed = 14 := by
  simp only [MaterialCalculator.calculate_tile_needed]
  rw [pyInt_twelve, pyDiv_12_12, pyMul_one_one, pyDiv_120_1, ratCeil_120, pyInt_120,
    waste10_val, one_plus_waste10, tile_132_step, ratCeil_132, pyInt_132, pyInt_ten,
    tile_div10_step, ratCeil_tile]

theorem tile_total_val :
    (MaterialCalculator.calculate_tile_needed 120 12 12 waste10).total_tiles = 140 := by
  simp only [MaterialCalculator.calculate_tile_needed]
  rw [pyInt_twelve, pyDiv_12_12, pyMul_one_one, pyDiv_120_1, ratCeil_120, pyInt_120,
    waste10_val, one_plus_waste10, tile_132_step, ratCeil_132, pyInt_132, pyInt_ten,
    tile_div10_step, ratCeil_tile]
  norm_num

/-! ### Products (`suppliers/base_supplier.py`, `suppliers/home_depot.py`)

`Product` is the dataclass of `base_supplier.py`; `specifications` values are
modelled as strings (the search code never reads them). Prices, ratings and
distances are floats, carried as their exact rational values. -/

structure Product where
  id : String
  name : String
  category : String
  subcategory : String
  price : ℚ
  currency : String
  supplier : String
  in_stock : Bool
  quantity_available : Option ℤ
  specifications : List (String × String)
  url : Option String
  image_url : Option String
  rating : Option ℚ
  review_count : Option ℤ
  store_location : Option String
  distance_miles : Option ℚ
  manufacturer : Option String
deriving DecidableEq

/-- Python truthiness of an optional number (`None` and `0` are falsy). -/
def numOptTruthy : Option ℚ → Bool
  | none => false
  | some x => !(x == 0)

/-- The `searchable` string of `search_products`:
`f"{name} {category} {subcategory}".lower()`. -/
def productSearchable (p : Product) : List Char :=
  pyLower ((p.name ++ " " ++ p.category ++ " " ++ p.subcategory).data)

/-- The mock store location written by `search_products` when a zip code is
supplied. -/
def mockStoreLocation : String := "Brighton, MA"

/-- The mock distance written by `search_products` (the Python literal `2.3`). -/
def mockDistance : ℚ := roundDouble (23 / 10)

/-- The in-place mutation `product.store_location = "Brighton, MA";
product.distance_miles = 2.3` performed on matching products. -/
def applyZip (p : Product) : Product :=
  { p with store_location := some mockStoreLocation, distance_miles := some mockDistance }

/-- The product loop of `search_products`: category filter, price filter,
keyword test, and the zip-code mutation of matching products. Returns
(results, stored collection after the loop); the appended result objects alias
the (possibly mutated) stored products. -/
def searchLoop (query_lower : List Char) (category : Option String)
    (max_price : Option ℚ) (zipT : Bool) : List Product → List Product × List Product
  | [] => ([], [])
  | p :: rest =>
    if strOptTruthy category && !(some p.category == category) then
      let r := searchLoop query_lower category max_price zipT rest
      (r.1, p :: r.2)
    else if numOptTruthy max_price && decide (max_price.getD 0 < p.price) then
      let r := searchLoop query_lower category max_price zipT rest
      (r.1, p :: r.2)
    else if (pySplit query_lower).any (fun w => substrIn w (productSearchable p)) then
      let p2 := if zipT then applyZip p else p
      let r := searchLoop query_lower category max_price zipT rest
      (p2 :: r.1, p2 :: r.2)
    else
      let r := searchLoop query_lower category max_price zipT rest
      (r.1, p :: r.2)

/-- A product passes all filters and the keyword test (conditions in source
order). -/
def matchesAll (query_lower : List Char) (category : Option String)
    (max_price : Option ℚ) (p : Product) : Bool :=
  !(strOptTruthy category && !(some p.category == category)) &&
    (!(numOptTruthy max_price && decide (max_price.getD 0 < p.price)) &&
      (pySplit query_lower).any (fun w => substrIn w (productSearchable p)))

/-- Key function of `results.sort(key=lambda p: (p.price, -p.rating if
p.rating else 0))`: second component of the key tuple. -/
def ratingKey (p : Product) : ℚ :=
  match p.rating with
  | none => 0
  | some r => if r == 0 then 0 else -r

/-- Lexicographic comparison on the sort key `(price, ratingKey)`;
Python's stable ascending sort inserts each element after equal keys. -/
def priceRatingLe (a b : Product) : Prop :=
  a.price < b.price ∨ (a.price = b.price ∧ ratingKey a ≤ ratingKey b)

instance : DecidableRel priceRatingLe := fun a b =>
  inferInstanceAs (Decidable (_ ∨ _))

instance : IsTotal Product priceRatingLe :=
  ⟨fun a b => by
    rcases lt_trichotomy a.price b.price with h | h | h
    · exact Or.inl (Or.inl h)
    · rcases le_total (ratingKey a) (ratingKey b) with h2 | h2
      · exact Or.inl (Or.inr ⟨h, h2⟩)
      · exact Or.inr (Or.inr ⟨h.symm, h2⟩)
    · exact Or.inr (Or.inl h)⟩

instance : IsTrans Product priceRatingLe :=
  ⟨fun _ _ _ hab hbc => by
    rcases hab with h1 | ⟨h1, h1'⟩ <;> rcases hbc with h2 | ⟨h2, h2'⟩
    · exact Or.inl (lt_trans h1 h2)
    · exact Or.inl (h2 ▸ h1)
    · exact Or.inl (h1 ▸ h2)
    · exact Or.inr ⟨h1.trans h2, le_trans h1' h2'⟩⟩

namespace HomeDepotSupplier

/-- `HomeDepotSupplier.search_products(query, category, zip_code, max_price,
limit)`, returning (results, stored collection after the call). -/
def search_products (store : List Product) (query : String)
    (category : Option String) (zip_code : Option String) (max_price : Option ℚ)
    (limit : Nat) : List Product × List Product :=
  let r := searchLoop (pyLower query.data) category max_price (strOptTruthy zip_code) store
  ((List.insertionSort priceRatingLe r.1).take limit, r.2)

end HomeDepotSupplier

/-! ### Lemmas about the record search -/

theorem foldl_score_eq (text : List Char) (ws : List (List Char)) (n : ℕ) :
    ws.foldl (fun score word => if substrIn word text then score + 1 else score) n =
      n + ws.countP (fun w => substrIn w text) := by
  induction ws generalizing n with
  | nil => simp
  | cons w rest ih =>
    simp only [List.foldl_cons, List.countP_cons, ih]
    by_cases h : substrIn w text <;> simp [h] <;> omega

theorem keywordScore_eq (query_lower text : List Char) :
    keywordScore query_lower text =
      (pySplit query_lower).countP (fun w => substrIn w text) := by
  unfold keywordScore
  rw [foldl_score_eq]
  omega

theorem mem_collectResults {query jurisdiction : String} {code_type : Option String}
    {codes : List CodeRecord} {x : CodeRecord × ℕ}
    (hx : x ∈ collectResults query jurisdiction code_type codes) :
    x.1 ∈ codes ∧ x.1.jurisdiction = some jurisdiction ∧
      (strOptTruthy code_type = true → x.1.category = code_type) ∧
      0 < x.2 ∧ x.2 = keywordScore (pyLower query.data) (searchableText x.1) := by
  induction codes with
  | nil => simp [collectResults] at hx
  | cons code rest ih =>
    simp only [collectResults] at hx
    split at hx
    · obtain ⟨m, h2, h3, h4, h5⟩ := ih hx
      exact ⟨List.mem_cons_of_mem _ m, h2, h3, h4, h5⟩
    · next hj =>
      split at hx
      · obtain ⟨m, h2, h3, h4, h5⟩ := ih hx
        exact ⟨List.mem_cons_of_mem _ m, h2, h3, h4, h5⟩
      · next hct =>
        split at hx
        · next hs =>
          rcases List.mem_cons.mp hx with rfl | hx'
          · refine ⟨List.mem_cons_self _ _, not_not.mp hj, ?_, hs, rfl⟩
            intro htr
            have hbeq : (code.category == code_type) = true := by
              by_contra hne
              exact hct (by simp [htr, hne])
            exact eq_of_beq hbeq
          · obtain ⟨m, h2, h3, h4, h5⟩ := ih hx'
            exact ⟨List.mem_cons_of_mem _ m, h2, h3, h4, h5⟩
        · obtain ⟨m, h2, h3, h4, h5⟩ := ih hx
          exact ⟨List.mem_cons_of_mem _ m, h2, h3, h4, h5⟩

theorem mem_search {codes : List CodeRecord} {query jurisdiction : String}
    {code_type : Option String} {top_k : ℕ} {x : CodeRecord × ℕ}
    (hx : x ∈ CodeDatabase.search codes query jurisdiction code_type top_k) :
    x ∈ collectResults query jurisdiction code_type codes :=
  (List.perm_insertionSort scoreGe _).subset (List.take_subset _ _ hx)

theorem filter_orderedInsert (a : CodeRecord × ℕ) (l : List (CodeRecord × ℕ)) (n : ℕ) :
    (List.orderedInsert scoreGe a l).filter (fun x => x.2 == n) =
      if a.2 = n then a :: l.filter (fun x => x.2 == n)
      else l.filter (fun x => x.2 == n) := by
  induction l with
  | nil => by_cases h : a.2 = n <;> simp [List.orderedInsert, h]
  | cons b t ih =>
    by_cases hab : scoreGe a b
    · simp only [List.orderedInsert, if_pos hab]
      by_cases h : a.2 = n <;> by_cases hb : b.2 = n <;>
        simp [List.filter_cons, h, hb]
    · simp only [List.orderedInsert, if_neg hab]
      have hlt : a.2 < b.2 := Nat.not_le.mp hab
      by_cases h : a.2 = n
      · have hb : ¬(b.2 = n) := by omega
        simp [List.filter_cons, hb, ih, h]
      · by_cases hb : b.2 = n <;> simp [List.filter_cons, hb, ih, h]

theorem filter_insertionSort (l : List (CodeRecord × ℕ)) (n : ℕ) :
    (List.insertionSort scoreGe l).filter (fun x => x.2 == n) =
      l.filter (fun x => x.2 == n) := by
  induction l with
  | nil => rfl
  | cons a t ih =>
    simp only [List.insertionSort]
    rw [filter_orderedInsert]
    by_cases h : a.2 = n <;> simp [List.filter_cons, h, ih]

theorem collectResults_empty_query (jurisdiction : String) (code_type : Option String)
    (codes : List CodeRecord) : collectResults "" jurisdiction code_type codes = [] := by
  induction codes with
  | nil => rfl
  | cons code rest ih =>
    simp only [collectResults, ih]
    have hs : keywordScore (pyLower ("" : String).data) (searchableText code) = 0 := rfl
    simp [hs]

/-- The stored collection after the `search_products` loop: every product that
passes the filters and the keyword test is mutated by `applyZip` when a truthy
zip code was supplied; all other products are untouched. -/
theorem searchLoop_snd_eq (query_lower : List Char) (category : Option String)
    (max_price : Option ℚ) (zipT : Bool) (store : List Product) :
    (searchLoop query_lower category max_price zipT store).2 =
      store.map (fun p =>
        if zipT && matchesAll query_lower category max_price p then applyZip p else p) := by
  induction store with
  | nil => rfl
  | cons p rest ih =>
    simp only [searchLoop]
    cases h1 : (strOptTruthy category && !(some p.category == category))
    · cases h2 : (numOptTruthy max_price && decide (max_price.getD 0 < p.price))
      · have hm : matchesAll query_lower category max_price p =
            (pySplit query_lower).any (fun w => substrIn w (productSearchable p)) := by
          unfold matchesAll
          rw [h1, h2]
          simp
        cases h3 : (pySplit query_lower).any (fun w => substrIn w (productSearchable p))
        · simp [h1, h2, h3, hm, ih]
        · simp [h1, h2, h3, hm, ih]
      · have hm : matchesAll query_lower category max_price p = false := by
          unfold matchesAll
          rw [h2]
          simp
        simp [h1, h2, hm, ih]
    · have hm : matchesAll query_lower category max_price p = false := by
        unfold matchesAll
        rw [h1]
        simp
      simp [h1, hm, ih]

/-! ### Sample data for the concrete witnesses -/

/-- A sample building-code record. -/
def sampleCode : CodeRecord :=
  { code_ref := some "E3901.1"
    title := some "Receptacle outlet spacing"
    summary := some "Wall receptacle outlets and wire runs in living rooms"
    common_questions := some ["How far apart should outlets be"]
    jurisdiction := some "National"
    category := some "electrical" }

/-- A sample product record. -/
def sampleProduct : Product :=
  { id := "HD-12345"
    name := "Southwire 250 ft 12-2 NM-B Wire"
    category := "electrical"
    subcategory := "wire"
    price := 10
    currency := "USD"
    supplier := "Home Depot"
    in_stock := true
    quantity_available := some 5
    specifications := []
    url := none
    image_url := none
    rating := none
    review_count := some 0
    store_location := none
    distance_miles := none
    manufacturer := some "Southwire" }

/-! ### Claim theorems -/

/-- C1: for every record collection and non-empty query, every result of
`CodeDatabase.search` has `relevance_score ≥ 1`, and that score equals the
number of tokens of the lowercased whitespace-split query (duplicates counted
once each per occurrence) that occur as substrings of the record's lowercased
searchable text (title, summary, and space-joined common questions). -/
theorem c1_relevance_score (codes : List CodeRecord) (query jurisdiction : String)
    (code_type : Option String) (top_k : ℕ) (hq : query ≠ "")
    (r : CodeRecord × ℕ)
    (hr : r ∈ CodeDatabase.search codes query jurisdiction code_type top_k) :
    1 ≤ r.2 ∧
      r.2 = (pySplit (pyLower query.data)).countP
        (fun w => substrIn w (searchableText r.1)) := by
  obtain ⟨-, -, -, h4, h5⟩ := mem_collectResults (mem_search hr)
  exact ⟨h4, h5.trans (keywordScore_eq _ _)⟩

/-- Witness for C1 at a concrete record and query. -/
theorem c1_relevance_score_witness :
    1 ≤ ((sampleCode, 2) : CodeRecord × ℕ).2 ∧
      ((sampleCode, 2) : CodeRecord × ℕ).2 =
        (pySplit (pyLower ("wire outlets" : String).data)).countP
          (fun w => substrIn w (searchableText ((sampleCode, 2) : CodeRecord × ℕ).1)) :=
  c1_relevance_score [sampleCode] "wire outlets" "National" none 3 (by decide)
    (sampleCode, 2) (List.mem_singleton.mpr rfl)

/-- C2: `search` returns the first `top_k` elements of the scored, filtered
records sorted by score descending, where the sort is a permutation and, for
every score value, preserves the original relative order of records with that
score (stability). -/
theorem c2_sorted_stable (codes : List CodeRecord) (query jurisdiction : String)
    (code_type : Option String) (top_k : ℕ) (hk : 0 < top_k) :
    CodeDatabase.search codes query jurisdiction code_type top_k =
      (List.insertionSort scoreGe
        (collectResults query jurisdiction code_type codes)).take top_k ∧
    List.Sorted scoreGe
      (List.insertionSort scoreGe (collectResults query jurisdiction code_type codes)) ∧
    List.Perm
      (List.insertionSort scoreGe (collectResults query jurisdiction code_type codes))
      (collectResults query jurisdiction code_type codes) ∧
    ∀ n : ℕ,
      (List.insertionSort scoreGe
          (collectResults query jurisdiction code_type codes)).filter (fun x => x.2 == n) =
        (collectResults query jurisdiction code_type codes).filter (fun x => x.2 == n) :=
  ⟨rfl, List.sorted_insertionSort scoreGe _, List.perm_insertionSort scoreGe _,
    fun n => filter_insertionSort _ n⟩

/-- Witness for C2 at a concrete record collection. -/
theorem c2_sorted_stable_witness :
    CodeDatabase.search [sampleCode] "wire outlets" "National" none 3 =
      (List.insertionSort scoreGe
        (collectResults "wire outlets" "National" none [sampleCode])).take 3 :=
  (c2_sorted_stable [sampleCode] "wire outlets" "National" none 3 (by decide)).1

/-- C3: every returned record's `jurisdiction` equals the requested one, and
when a non-empty `code_type` is provided, its `category` equals it; records
whose filtered attribute is absent (`none`) are never returned. -/
theorem c3_filters (codes : List CodeRecord) (query jurisdiction : String)
    (code_type : Option String) (top_k : ℕ) (r : CodeRecord × ℕ)
    (hr : r ∈ CodeDatabase.search codes query jurisdiction code_type top_k) :
    r.1.jurisdiction = some jurisdiction ∧
      ∀ ct : String, code_type = some ct → ct ≠ "" → r.1.category = some ct := by
  obtain ⟨-, h2, h3, -, -⟩ := mem_collectResults (mem_search hr)
  refine ⟨h2, fun ct hct hne => ?_⟩
  have htr : strOptTruthy code_type = true := by
    rw [hct]
    simp [strOptTruthy, hne]
  rw [h3 htr, hct]

/-- Witness for C3 at a concrete record and category filter. -/
theorem c3_filters_witness :
    ((sampleCode, 1) : CodeRecord × ℕ).1.jurisdiction = some "National" :=
  (c3_filters [sampleCode] "wire" "National" (some "electrical") 3 (sampleCode, 1)
    (List.mem_singleton.mpr rfl)).1

/-- C4: the empty query yields zero tokens, so every record scores 0 and
`search` returns the empty list, whatever the collection, filters and limit. -/
theorem c4_empty_query (codes : List CodeRecord) (jurisdiction : String)
    (code_type : Option String) (top_k : ℕ) :
    CodeDatabase.search codes "" jurisdiction code_type top_k = [] := by
  rw [CodeDatabase.search, collectResults_empty_query]
  simp

/-- C5 counterexample: at the spec's own scenario the returned `with_waste` is
the IEEE-754 double `114.99999999999999`, not `115.0`. -/
theorem c5_with_waste_cex :
    (MaterialCalculator.calculate_wire_length 50 1 waste15).with_waste ≠ 115 := by
  rw [wire_ww_val]
  norm_num

/-- C5 amended: `wire(50, 1)` with the default waste factor `0.15` returns
`base_feet = 100`, `with_waste = 115 - 2⁻⁴⁶` (the double printed
`114.99999999999999`), and `recommended_feet = 125`; in general the fields
follow the stated formulas with each arithmetic operation rounded to binary64. -/
theorem c5_wire_scenario :
    (MaterialCalculator.calculate_wire_length 50 1 waste15).base_feet = 100 ∧
    (MaterialCalculator.calculate_wire_length 50 1 waste15).with_waste =
      8092405580431359 / 70368744177664 ∧
    (MaterialCalculator.calculate_wire_length 50 1 waste15).with_waste =
      115 - (2 : ℚ) ^ (-46 : ℤ) ∧
    (MaterialCalculator.calculate_wire_length 50 1 waste15).recommended_feet = 125 ∧
    ∀ (c : ℚ) (n : ℤ) (w : ℚ),
      (MaterialCalculator.calculate_wire_length c n w).base_feet =
        pyMul (pyMul c 2) (pyInt n) ∧
      (MaterialCalculator.calculate_wire_length c n w).with_waste =
        pyMul (MaterialCalculator.calculate_wire_length c n w).base_feet (pyAdd 1 w) ∧
      (MaterialCalculator.calculate_wire_length c n w).recommended_feet =
        ratCeil (pyDiv (MaterialCalculator.calculate_wire_length c n w).with_waste 25) * 25 := by
  refine ⟨wire_base_val, wire_ww_val, ?_, wire_rec_val, fun c n w => ⟨rfl, rfl, rfl⟩⟩
  rw [wire_ww_val]
  norm_num

/-- C6 counterexample: at the spec's scenario the code returns
`tiles_needed = 132`, not `144`. -/
theorem c6_tiles_cex :
    (MaterialCalculator.calculate_tile_needed 120 12 12 waste10).tiles_needed ≠ 144 := by
  rw [tile_tiles_val]
  norm_num

/-- C6 amended: `tile(120, (12, 12))` with the default waste factor `0.10`
returns `tiles_needed = 132`, `cases_needed = 14` and reported
`total_tiles = 140`; in general `total_tiles = cases_needed * 10` and
`cases_needed = ceil(tiles_needed / 10)` (float division). -/
theorem c6_tile_scenario :
    (MaterialCalculator.calculate_tile_needed 120 12 12 waste10).tiles_needed = 132 ∧
    (MaterialCalculator.calculate_tile_needed 120 12 12 waste10).cases_needed = 14 ∧
    (MaterialCalculator.calculate_tile_needed 120 12 12 waste10).total_tiles = 140 ∧
    ∀ (a : ℚ) (w h : ℤ) (wf : ℚ),
      (MaterialCalculator.calculate_tile_needed a w h wf).total_tiles =
        (MaterialCalculator.calculate_tile_needed a w h wf).cases_needed * 10 ∧
      (MaterialCalculator.calculate_tile_needed a w h wf).cases_needed =
        ratCeil (pyDiv (pyInt (MaterialCalculator.calculate_tile_needed a w h wf).tiles_needed)
          (pyInt 10)) :=
  ⟨tile_tiles_val, tile_cases_val, tile_total_val, fun a w h wf => ⟨rfl, rfl⟩⟩

/-- C7 counterexample: `search_products` with a zip code mutates the stored
collection — after the call the stored product is no longer the original. -/
theorem c7_mutation_cex :
    (HomeDepotSupplier.search_products [sampleProduct] "wire" none (some "02134") none 10).2 ≠
      [sampleProduct] := by
  intro h
  have heval :
      (HomeDepotSupplier.search_products [sampleProduct] "wire" none (some "02134") none 10).2 =
        [applyZip sampleProduct] := rfl
  rw [heval] at h
  have h3 : applyZip sampleProduct = sampleProduct := (List.cons.injEq _ _ _ _).mp h |>.1
  have h4 := congrArg Product.store_location h3
  simp [applyZip, sampleProduct] at h4

/-- C7 amended: `CodeDatabase.search` never writes to the record collection;
`search_products` leaves the stored products unchanged when no truthy zip code
is supplied, but with a truthy zip code it overwrites `store_location` and
`distance_miles` on every product matching the filters and keyword test. -/
theorem c7_search_state :
    (∀ (codes : List CodeRecord) (query jurisdiction : String) (code_type : Option String)
        (top_k : ℕ),
      (CodeDatabase.searchST codes query jurisdiction code_type top_k).2 = codes) ∧
    (∀ (store : List Product) (query : String) (category zip_code : Option String)
        (max_price : Option ℚ) (limit : ℕ),
      (HomeDepotSupplier.search_products store query category zip_code max_price limit).2 =
        store.map (fun p =>
          if strOptTruthy zip_code && matchesAll (pyLower query.data) category max_price p
          then applyZip p else p)) ∧
    (∀ (store : List Product) (query : String) (category zip_code : Option String)
        (max_price : Option ℚ) (limit : ℕ), strOptTruthy zip_code = false →
      (HomeDepotSupplier.search_products store query category zip_code max_price limit).2 =
        store) := by
  refine ⟨fun _ _ _ _ _ => rfl, fun store q c z m l => searchLoop_snd_eq _ _ _ _ _,
    fun store q c z m l hz => ?_⟩
  rw [HomeDepotSupplier.search_products]
  show (searchLoop (pyLower q.data) c m (strOptTruthy z) store).2 = store
  rw [searchLoop_snd_eq, hz]
  simp

/-- Witness for C7 (amended) at a concrete call without a zip code. -/
theorem c7_search_state_witness :
    (HomeDepotSupplier.search_products [sampleProduct] "wire" none none none 10).2 =
      [sampleProduct] :=
  c7_search_state.2.2 [sampleProduct] "wire" none none none 10 rfl

/-- C8: `get_section` returns the first record (in collection order) whose
`code_ref` and `jurisdiction` both match exactly, and `none` when no record
matches; being a total function it never raises and is deterministic. -/
theorem c8_get_section (codes : List CodeRecord) (reference jurisdiction : String) :
    CodeDatabase.get_section codes reference jurisdiction =
      codes.find? (fun c => c.code_ref == some reference && c.jurisdiction == some jurisdiction) ∧
    ((∀ c ∈ codes, ¬(c.code_ref = some reference ∧ c.jurisdiction = some jurisdiction)) →
      CodeDatabase.get_section codes reference jurisdiction = none) := by
  have h1 : CodeDatabase.get_section codes reference jurisdiction =
      codes.find? (fun c =>
        c.code_ref == some reference && c.jurisdiction == some jurisdiction) := by
    induction codes with
    | nil => rfl
    | cons code rest ih =>
      rw [CodeDatabase.get_section]
      by_cases h : code.code_ref = some reference ∧ code.jurisdiction = some jurisdiction
      · rw [if_pos h, List.find?_cons_of_pos]
        simp [h.1, h.2]
      · rw [if_neg h, ih, List.find?_cons_of_neg]
        simp only [Bool.and_eq_true, beq_iff_eq]
        exact fun hc => h ⟨hc.1, hc.2⟩
  refine ⟨h1, fun hall => ?_⟩
  rw [h1, List.find?_eq_none]
  intro c hc
  simp only [Bool.and_eq_true, beq_iff_eq]
  exact fun hcc => hall c hc ⟨hcc.1, hcc.2⟩

/-- Witness for C8 at a concrete collection and reference. -/
theorem c8_get_section_witness :
    CodeDatabase.get_section [sampleCode] "E3901.1" "National" =
      List.find? (fun c => c.code_ref == some "E3901.1" && c.jurisdiction == some "National")
        [sampleCode] :=
  (c8_get_section [sampleCode] "E3901.1" "National").1

/-- C9: a missing backing file yields the empty collection (no exception), and
every search over that empty collection returns the empty list. -/
theorem c9_missing_corpus :
    CodeDatabase.load_codes none = [] ∧
    ∀ (query jurisdiction : String) (code_type : Option String) (top_k : ℕ),
      CodeDatabase.search (CodeDatabase.load_codes none) query jurisdiction code_type top_k =
        [] := by
  refine ⟨rfl, fun q j ct k => ?_⟩
  show CodeDatabase.search [] q j ct k = []
  rw [CodeDatabase.search]
  simp [collectResults]

/-- C10: a falsy filter value disables the filter: `code_type = ""` behaves as
no category filter in `CodeDatabase.search`, and `max_price = 0` behaves as no
price ceiling in `search_products`. -/
theorem c10_falsy_filters :
    (∀ (codes : List CodeRecord) (query jurisdiction : String) (top_k : ℕ),
      CodeDatabase.search codes query jurisdiction (some "") top_k =
        CodeDatabase.search codes query jurisdiction none top_k) ∧
    (∀ (store : List Product) (query : String) (category zip_code : Option String)
        (limit : ℕ),
      HomeDepotSupplier.search_products store query category zip_code (some 0) limit =
        HomeDepotSupplier.search_products store query category zip_code none limit) := by
  constructor
  · intro codes q j k
    rw [CodeDatabase.search, CodeDatabase.search]
    have h : collectResults q j (some "") codes = collectResults q j none codes := by
      induction codes with
      | nil => rfl
      | cons code rest ih => simp [collectResults, strOptTruthy, ih]
    rw [h]
  · intro store q c z l
    rw [HomeDepotSupplier.search_products, HomeDepotSupplier.search_products]
    have h : searchLoop (pyLower q.data) c (some 0) (strOptTruthy z) store =
        searchLoop (pyLower q.data) c none (strOptTruthy z) store := by
      induction store with
      | nil => rfl
      | cons p rest ih => simp [searchLoop, numOptTruthy, ih]
    rw [h]
